import Mathlib

/-!
# goui: windowed-rendering bootstrap

A shallow embedding of `engine/game.go` and `main.go`.  Package-level variables
and the `Game` struct become one explicit `World` record; calls into GLFW,
OpenGL and the standard output are recorded, in order, in `World.trace`;
the answers of the platform (does `glfw.Init` succeed, which handle does
`gl.CreateProgram` return, ...) are read from an `Env` record.  Floating-point
scalars are replaced by an arbitrary field `α` (exact arithmetic); the square
root used by `Vec3.Len` is passed as a parameter.
-/

namespace Goui

/-! ## mgl32.Vec3 -/

/-- Three-component vector (`mgl32.Vec3`). -/
structure Vec3 (α : Type) where
  x : α
  y : α
  z : α

namespace Vec3

variable {α : Type} [Field α]

/-- Componentwise sum, `v1.Add(v2)`. -/
def Add (v1 v2 : Vec3 α) : Vec3 α :=
  ⟨v1.x + v2.x, v1.y + v2.y, v1.z + v2.z⟩

/-- Componentwise difference, `v1.Sub(v2)`. -/
def Sub (v1 v2 : Vec3 α) : Vec3 α :=
  ⟨v1.x - v2.x, v1.y - v2.y, v1.z - v2.z⟩

/-- Scaling by a scalar, `v1.Mul(c)`. -/
def Mul (v1 : Vec3 α) (c : α) : Vec3 α :=
  ⟨v1.x * c, v1.y * c, v1.z * c⟩

/-- Cross product, `v1.Cross(v2)`. -/
def Cross (v1 v2 : Vec3 α) : Vec3 α :=
  ⟨v1.y * v2.z - v1.z * v2.y, v1.z * v2.x - v1.x * v2.z, v1.x * v2.y - v1.y * v2.x⟩

/-- Euclidean length, `v1.Len()`; `sqrt` is the square root of the scalar type. -/
def Len (sqrt : α → α) (v1 : Vec3 α) : α :=
  sqrt (v1.x * v1.x + v1.y * v1.y + v1.z * v1.z)

/-- Scaling to unit length, `v1.Normalize()`: multiplies by `1 / v1.Len()`. -/
def Normalize (sqrt : α → α) (v1 : Vec3 α) : Vec3 α :=
  let l := 1 / v1.Len sqrt
  ⟨v1.x * l, v1.y * l, v1.z * l⟩

end Vec3

/-- Symbolic 4x4 matrices: the program only builds them and hands them to the GPU. -/
inductive Mat4 (α : Type) where
  | zero
  | Ident4
  | LookAtV (eye center up : Vec3 α)
  | Perspective (fovyDegrees aspect near far : α)

/-! ## GLFW constants -/

/-- Key code `glfw.KeyEscape`. -/
def KeyEscape : Int := 256
/-- Key code `glfw.KeyF11`. -/
def KeyF11 : Int := 300
/-- Key code `glfw.KeyW`. -/
def KeyW : Int := 87
/-- Key code `glfw.KeyS`. -/
def KeyS : Int := 83
/-- Key code `glfw.KeyA`. -/
def KeyA : Int := 65
/-- Key code `glfw.KeyD`. -/
def KeyD : Int := 68

/-- Key action `glfw.Release`. -/
def Release : Int := 0
/-- Key action `glfw.Press`. -/
def Press : Int := 1
/-- Key action `glfw.Repeat`. -/
def Repeat : Int := 2

/-! ## Windows, monitors, effects -/

/-- Video mode of a monitor, as read by `GetVideoMode()`. -/
structure VidMode where
  Width : Int
  Height : Int
deriving DecidableEq

/-- Monitor handle (`*glfw.Monitor`). -/
structure Monitor where
  id : Nat
deriving DecidableEq

/-- The display setup the program queries: `glfw.GetPrimaryMonitor()` and its video mode. -/
structure Display where
  primary : Monitor
  mode : VidMode
deriving DecidableEq

/-- What the window system knows about the one window of the program:
the close flag and the placement last set by `CreateWindow` / `SetMonitor`.
`monitor = none` is the `nil` monitor (windowed mode). -/
structure Window where
  shouldClose : Bool
  monitor : Option Monitor
  xpos : Int
  ypos : Int
  width : Int
  height : Int
deriving DecidableEq

/-- Shader stage names. -/
inductive Stage where
  | VERTEX
  | FRAGMENT
deriving DecidableEq

/-- Hints set before the window is created. -/
inductive Hint where
  | RedBits
  | GreenBits
  | BlueBits
  | AlphaBits
  | DepthBits
  | DoubleBuffer
  | ContextVersionMajor
  | ContextVersionMinor
  | OpenGLProfile
  | OpenGLForwardCompatible
deriving DecidableEq

/-- Values of the two symbolic hints. -/
inductive HintValue where
  | num (n : Int)
  | OpenGLCoreProfile
  | True
deriving DecidableEq

/-- Callback slots of a window. -/
inductive Callback where
  | Close
  | Size
  | Key
  | MouseButton
  | CursorPos
  | CursorEnter
  | Scroll
deriving DecidableEq

/-- Uniform names looked up by `Update`. -/
inductive Uniform where
  | view
  | model
  | projection
deriving DecidableEq

/-- One declared vertex attribute: `gl.VertexAttribPointer(index, size, FLOAT, false, stride, offset)`,
stride and offset in bytes. -/
structure VertexAttrib where
  index : Nat
  size : Nat
  stride : Nat
  offset : Nat
deriving DecidableEq

/-- Primitive modes used by the program. -/
inductive DrawMode where
  | TRIANGLES
deriving DecidableEq

/-- Lines written to standard output. -/
inductive Line (α : Type) where
  | glfwVersion
  | failedGlfw
  | failedWindow
  | failedOpenGL
  | openGLVersion
  | shaderError (stage : Stage)
  | linkError
  | size (width height : Int)
  | mouseButton (button action : Int)
  | cursorPos (xpos ypos : α)
  | cursorEntered (entered : Bool)
  | scroll (xoff yoff : α)

/-- Observable calls, in the order the program makes them. -/
inductive Effect (α : Type) where
  | print (l : Line α)
  | glfwInit
  | windowHint (h : Hint) (v : HintValue)
  | createWindow (width height : Int)
  | setIcon
  | setCallback (c : Callback)
  | makeContextCurrent
  | glInit
  | createShader (stage : Stage)
  | shaderSource (stage : Stage)
  | compileShader (stage : Stage)
  | getShaderiv (stage : Stage)
  | getShaderInfoLog (stage : Stage)
  | createProgram
  | attachShader (program : Nat) (stage : Stage)
  | linkProgram (program : Nat)
  | getProgramiv (program : Nat)
  | getProgramInfoLog (program : Nat)
  | deleteShader (stage : Stage)
  | genVertexArrays
  | genBuffers
  | bindVertexArray (vao : Nat)
  | bindBuffer (vbo : Nat)
  | bufferData (bytes : Nat) (data : List α)
  | vertexAttribPointer (a : VertexAttrib)
  | enableVertexAttribArray (index : Nat)
  | clearColor
  | clear
  | pollEvents
  | getUniformLocation (program : Nat) (u : Uniform)
  | uniformMatrix4fv (u : Uniform) (m : Mat4 α)
  | useProgram (program : Nat)
  | drawArrays (mode : DrawMode) (first count : Nat)
  | swapBuffers
  | windowDestroy (present : Bool)
  | glfwTerminate

/-! ## State -/

/-- The `Game` struct. `MWindow = none` is the nil window pointer. -/
structure Game where
  MWindow : Option Window
  VAO : Nat
  VBO : Nat
  Program : Nat
deriving DecidableEq

/-- Package-level variables of `engine`, the `Game` value of `main`, and the trace of calls. -/
structure World (α : Type) where
  IsRunning : Bool
  IsFullscreen : Bool
  WindowWidth : Int
  WindowHeight : Int
  cameraPos : Vec3 α
  cameraFront : Vec3 α
  cameraUp : Vec3 α
  projection : Mat4 α
  game : Game
  trace : List (Effect α)

/-- Answers of the platform during startup. -/
structure Env where
  glfwInitOk : Bool
  createWindowOk : Bool
  windowXpos : Int
  windowYpos : Int
  iconDecodes : Bool
  glInitOk : Bool
  vertexCompiles : Bool
  fragmentCompiles : Bool
  program : Nat
  programLinks : Bool
  vao : Nat
  vbo : Nat
deriving DecidableEq

/-- Input events, one per registered callback. -/
inductive Event (α : Type) where
  | close
  | size (width height : Int)
  | key (key scancode action mods : Int)
  | mouseButton (button action mods : Int)
  | cursorPos (xpos ypos : α)
  | cursorEnter (entered : Bool)
  | scroll (xoff yoff : α)

section Program

variable {α : Type} [Field α]

/-- Movement per key event, `camerSpeed`. -/
def camerSpeed : α := 0.05

/-- The vertex data, `triangleVertices`: position then colour for each vertex. -/
def triangleVertices : List α :=
  [ 0.0, 0.5, -1.0, 1.0, 0.0, 0.0,
    -0.5, -0.5, 0.0, 0.0, 1.0, 0.0,
    0.5, -0.5, 0.0, 0.0, 0.0, 1.0 ]

/-- Initial values of the package-level variables and the zero `Game` of `main`. -/
def World.initial : World α :=
  { IsRunning := false
    IsFullscreen := false
    WindowWidth := 1024
    WindowHeight := 768
    cameraPos := ⟨0.0, 0.0, 3.0⟩
    cameraFront := ⟨0.0, 0.0, -1.0⟩
    cameraUp := ⟨0.0, 1.0, 0.0⟩
    projection := Mat4.zero
    game := ⟨none, 0, 0, 0⟩
    trace := [] }

/-- Append calls to the trace. -/
def World.emit (s : World α) (es : List (Effect α)) : World α :=
  { s with trace := s.trace ++ es }

/-- Apply a change to the window behind `g.MWindow`, the window every callback receives. -/
def World.onWindow (s : World α) (f : Window → Window) : World α :=
  { s with game := { s.game with MWindow := s.game.MWindow.map f } }

/-- Placement set by `w.SetMonitor(monitor, xpos, ypos, width, height, refreshRate)`. -/
def Window.SetMonitor (w : Window) (monitor : Option Monitor) (xpos ypos width height : Int) : Window :=
  { w with monitor := monitor, xpos := xpos, ypos := ypos, width := width, height := height }

/-- Close flag set by `w.SetShouldClose(value)`. -/
def Window.SetShouldClose (w : Window) (value : Bool) : Window :=
  { w with shouldClose := value }

/-! ## Callbacks -/

/-- `CloseCallback`. -/
def CloseCallback (s : World α) : World α :=
  { s with IsRunning := false }

/-- `SizeCallback`. -/
def SizeCallback (s : World α) (width height : Int) : World α :=
  s.emit [.print (.size width height)]

/-- `KeyCallback`. -/
def KeyCallback (sqrt : α → α) (d : Display) (s : World α) (key _scancode action _mods : Int) : World α :=
  if key = KeyEscape then
    if action = Press then s.onWindow (fun w => w.SetShouldClose true) else s
  else if key = KeyF11 then
    if action = Press then
      let s1 := { s with IsFullscreen := !s.IsFullscreen }
      if s1.IsFullscreen then
        s1.onWindow (fun w => w.SetMonitor (some d.primary) 0 0 d.mode.Width d.mode.Height)
      else
        let posX := Int.tdiv (d.mode.Width - s1.WindowWidth) 2
        let posY := Int.tdiv (d.mode.Height - s1.WindowHeight) 2
        s1.onWindow (fun w => w.SetMonitor none posX posY s1.WindowWidth s1.WindowHeight)
    else s
  else if key = KeyW then
    { s with cameraPos := s.cameraPos.Add (s.cameraFront.Mul camerSpeed) }
  else if key = KeyS then
    { s with cameraPos := s.cameraPos.Sub (s.cameraFront.Mul camerSpeed) }
  else if key = KeyA then
    { s with cameraPos := s.cameraPos.Sub (((s.cameraFront.Cross s.cameraUp).Normalize sqrt).Mul camerSpeed) }
  else if key = KeyD then
    { s with cameraPos := s.cameraPos.Add (((s.cameraFront.Cross s.cameraUp).Normalize sqrt).Mul camerSpeed) }
  else s

/-- `MouseButtonCallback`. -/
def MouseButtonCallback (s : World α) (button action _mods : Int) : World α :=
  s.emit [.print (.mouseButton button action)]

/-- `CursorPosCallback`. -/
def CursorPosCallback (s : World α) (xpos ypos : α) : World α :=
  s.emit [.print (.cursorPos xpos ypos)]

/-- `CursorEnterCallback`. -/
def CursorEnterCallback (s : World α) (entered : Bool) : World α :=
  s.emit [.print (.cursorEntered entered)]

/-- `ScrollCallback`. -/
def ScrollCallback (s : World α) (xoff yoff : α) : World α :=
  s.emit [.print (.scroll xoff yoff)]

/-- Delivery of one event to the callback registered for it in `Initialize`. -/
def dispatch (sqrt : α → α) (d : Display) (s : World α) : Event α → World α
  | .close => CloseCallback s
  | .size width height => SizeCallback s width height
  | .key key scancode action mods => KeyCallback sqrt d s key scancode action mods
  | .mouseButton button action mods => MouseButtonCallback s button action mods
  | .cursorPos xpos ypos => CursorPosCallback s xpos ypos
  | .cursorEnter entered => CursorEnterCallback s entered
  | .scroll xoff yoff => ScrollCallback s xoff yoff

/-- A finite sequence of callback invocations. -/
def dispatchAll (sqrt : α → α) (d : Display) (s : World α) (events : List (Event α)) : World α :=
  events.foldl (dispatch sqrt d) s

/-! ## Startup -/

/-- Attribute 0 as declared in `initializeOpenGL`: position. -/
def positionAttrib : VertexAttrib := ⟨0, 3, 6 * 4, 0⟩

/-- Attribute 1 as declared in `initializeOpenGL`: colour. -/
def colorAttrib : VertexAttrib := ⟨1, 3, 6 * 4, 3 * 4⟩

/-- `checkShaderCompileErrors`; `success` is the compile status the driver reports. -/
def checkShaderCompileErrors (success : Bool) (stage : Stage) (s : World α) : Bool × World α :=
  if success = false then
    (false, s.emit [.getShaderiv stage, .getShaderInfoLog stage, .print (.shaderError stage)])
  else
    (true, s.emit [.getShaderiv stage])

/-- `checkProgramLinkingErrors`; `success` is the link status the driver reports. -/
def checkProgramLinkingErrors (success : Bool) (program : Nat) (s : World α) : Bool × World α :=
  if success = false then
    (false, s.emit [.getProgramiv program, .getProgramInfoLog program, .print .linkError])
  else
    (true, s.emit [.getProgramiv program])

/-- Assignment to `g.Program` (a `uint32`). -/
def World.setProgram (s : World α) (h : Nat) : World α :=
  { s with game := { s.game with Program := h % 2 ^ 32 } }

/-- Assignment to `g.VAO` (a `uint32`). -/
def World.setVAO (s : World α) (h : Nat) : World α :=
  { s with game := { s.game with VAO := h % 2 ^ 32 } }

/-- Assignment to `g.VBO` (a `uint32`). -/
def World.setVBO (s : World α) (h : Nat) : World α :=
  { s with game := { s.game with VBO := h % 2 ^ 32 } }

/-- `Game.initializeOpenGL`. -/
def initializeOpenGL (env : Env) (s : World α) : World α :=
  let s1 := s.emit [.createShader .VERTEX, .createShader .FRAGMENT,
    .shaderSource .VERTEX, .compileShader .VERTEX]
  let c1 := checkShaderCompileErrors env.vertexCompiles .VERTEX s1
  if !c1.1 then c1.2 else
  let s2 := c1.2.emit [.shaderSource .FRAGMENT, .compileShader .FRAGMENT]
  let c2 := checkShaderCompileErrors env.fragmentCompiles .FRAGMENT s2
  if !c2.1 then c2.2 else
  let s3 := (c2.2.emit [.createProgram]).setProgram env.program
  let s4 := s3.emit [.attachShader s3.game.Program .VERTEX, .attachShader s3.game.Program .FRAGMENT,
    .linkProgram s3.game.Program]
  let c3 := checkProgramLinkingErrors env.programLinks s4.game.Program s4
  if !c3.1 then c3.2 else
  let s5 := c3.2.emit [.deleteShader .VERTEX, .deleteShader .FRAGMENT]
  let s6 := (s5.emit [.genVertexArrays]).setVAO env.vao
  let s7 := (s6.emit [.genBuffers]).setVBO env.vbo
  s7.emit [.bindVertexArray s7.game.VAO, .bindBuffer s7.game.VBO,
    .bufferData ((triangleVertices : List α).length * 4) triangleVertices,
    .vertexAttribPointer positionAttrib, .enableVertexAttribArray 0,
    .vertexAttribPointer colorAttrib, .enableVertexAttribArray 1,
    .bindBuffer 0, .bindVertexArray 0]

/-- The window `glfw.CreateWindow(WindowWidth, WindowHeight, "GOUI", nil, nil)` returns on
success: windowed, of the requested size, placed by the window system. -/
def createdWindow (env : Env) (s : World α) : Window :=
  { shouldClose := false, monitor := none, xpos := env.windowXpos, ypos := env.windowYpos,
    width := s.WindowWidth, height := s.WindowHeight }

/-- Assignment to `g.MWindow`. -/
def World.setWindow (s : World α) (w : Option Window) : World α :=
  { s with game := { s.game with MWindow := w } }

/-- `Game.Initialize`. -/
def Initialize (env : Env) (s : World α) : Bool × World α :=
  let s1 := s.emit [.print .glfwVersion, .glfwInit]
  if !env.glfwInitOk then (false, s1.emit [.print .failedGlfw]) else
  let s2 := s1.emit [.windowHint .RedBits (.num 8), .windowHint .GreenBits (.num 8),
    .windowHint .BlueBits (.num 8), .windowHint .AlphaBits (.num 8),
    .windowHint .DepthBits (.num 24), .windowHint .DoubleBuffer (.num 1),
    .windowHint .ContextVersionMajor (.num 3), .windowHint .ContextVersionMinor (.num 3),
    .windowHint .OpenGLProfile .OpenGLCoreProfile, .windowHint .OpenGLForwardCompatible .True,
    .createWindow s1.WindowWidth s1.WindowHeight]
  if !env.createWindowOk then (false, (s2.setWindow none).emit [.print .failedWindow]) else
  let s3 := s2.setWindow (some (createdWindow env s2))
  let s4 := if env.iconDecodes then s3.emit [.setIcon] else s3
  let s5 := s4.emit [.setCallback .Close, .setCallback .Size, .setCallback .Key,
    .setCallback .MouseButton, .setCallback .CursorPos, .setCallback .CursorEnter,
    .setCallback .Scroll, .makeContextCurrent, .glInit]
  if !env.glInitOk then (false, s5.emit [.print .failedOpenGL]) else
  let s6 := { s5 with
    projection := Mat4.Perspective 45.0 ((s5.WindowWidth : α) / (s5.WindowHeight : α)) 0.1 100.0 }
  let s7 := initializeOpenGL env (s6.emit [.print .openGLVersion])
  (true, { s7 with IsRunning := true })

/-! ## Frame loop -/

/-- `Game.ProcessInput`: `glfw.PollEvents()` delivers the pending events of the window, in order. -/
def ProcessInput (sqrt : α → α) (d : Display) (pending : List (Event α)) (s : World α) : World α :=
  match s.game.MWindow with
  | none => s.emit [.pollEvents]
  | some _ => dispatchAll sqrt d (s.emit [.pollEvents]) pending

/-- `Game.GenerateOutput`. -/
def GenerateOutput (s : World α) : World α :=
  s.emit [.useProgram s.game.Program, .bindVertexArray s.game.VAO,
    .drawArrays .TRIANGLES 0 3, .bindVertexArray 0]

/-- `Game.Update`. -/
def Update (s : World α) : World α :=
  let view := Mat4.LookAtV s.cameraPos (s.cameraPos.Add s.cameraFront) s.cameraUp
  let model : Mat4 α := Mat4.Ident4
  let s1 := s.emit [.getUniformLocation s.game.Program .view, .uniformMatrix4fv .view view,
    .getUniformLocation s.game.Program .model, .uniformMatrix4fv .model model,
    .getUniformLocation s.game.Program .projection, .uniformMatrix4fv .projection s.projection]
  GenerateOutput s1

/-- How a run of (part of) the program ended. -/
inductive Status where
  | ok
  | panicked
  | outOfFuel
deriving DecidableEq

/-- The loop body after `ProcessInput`: `Update`, `GenerateOutput`, then
`g.MWindow.SwapBuffers()`, which dereferences the window pointer. -/
def iterationTail (s2 : World α) : World α × Status :=
  let s3 := Update s2
  let s4 := GenerateOutput s3
  match s4.game.MWindow with
  | none => (s4, .panicked)
  | some _ => (s4.emit [.swapBuffers], .ok)

/-- One pass through the body of the `for IsRunning` loop. -/
def iteration (sqrt : α → α) (d : Display) (pending : List (Event α)) (s : World α) :
    World α × Status :=
  let s1 := s.emit [.clearColor, .clear]
  let s2 := ProcessInput sqrt d pending s1
  iterationTail s2

/-- Result of running the loop: final state, how it ended, and how many times its body ran. -/
structure Run (α : Type) where
  world : World α
  status : Status
  iterations : Nat

/-- One more body execution counted. -/
def Run.tick (r : Run α) : Run α :=
  { r with iterations := r.iterations + 1 }

/-- `Game.RunLoop`. `polls` lists, for each call of `PollEvents`, the events pending then;
when it is exhausted while `IsRunning` still holds the run is cut off (`outOfFuel`). -/
def RunLoop (sqrt : α → α) (d : Display) : List (List (Event α)) → World α → Run α
  | [], s => if s.IsRunning then ⟨s, .outOfFuel, 0⟩ else ⟨s, .ok, 0⟩
  | pending :: rest, s =>
    if s.IsRunning then
      match iteration sqrt d pending s with
      | (s1, .ok) => (RunLoop sqrt d rest s1).tick
      | (s1, st) => ⟨s1, st, 1⟩
    else ⟨s, .ok, 0⟩

/-- `Game.Shutdown`: `g.MWindow.Destroy()` dereferences the window pointer, then `glfw.Terminate()`. -/
def Shutdown (s : World α) : World α × Status :=
  match s.game.MWindow with
  | none => (s.emit [.windowDestroy false], .panicked)
  | some _ => (s.emit [.windowDestroy true, .glfwTerminate], .ok)

/-- The part of `main` after `Initialize` returned `ok`: the loop if `ok`, then `Shutdown`. -/
def mainAfterInitialize (sqrt : α → α) (d : Display) (polls : List (List (Event α)))
    (ok : Bool) (s : World α) : Run α :=
  let run : Run α := if ok then RunLoop sqrt d polls s else ⟨s, .ok, 0⟩
  match run.status with
  | .ok => ⟨(Shutdown run.world).1, (Shutdown run.world).2, run.iterations⟩
  | _ => run

/-- `main`. -/
def main (sqrt : α → α) (d : Display) (env : Env) (polls : List (List (Event α))) : Run α :=
  let r := Initialize env (World.initial : World α)
  mainAfterInitialize sqrt d polls r.1 r.2

/-- Number of draw calls in a trace. -/
def drawCalls (t : List (Effect α)) : Nat :=
  t.countP (fun e => match e with | .drawArrays _ _ _ => true | _ => false)

/-- Vertex fetch as OpenGL performs it on a buffer of 4-byte floats: attribute `a` of vertex
`i` is the `a.size` floats that start at byte `a.offset + i * a.stride`; `none` when that
read is not float-aligned or does not lie within the buffer. -/
def fetchAttrib (data : List α) (a : VertexAttrib) (i : Nat) : Option (List α) :=
  let start := a.offset + i * a.stride
  if start % 4 = 0 ∧ start + 4 * a.size ≤ 4 * data.length then
    some ((data.drop (start / 4)).take a.size)
  else
    none

/-- A platform on which every startup step succeeds. -/
def Env.allOk : Env :=
  { glfwInitOk := true, createWindowOk := true, windowXpos := 100, windowYpos := 100,
    iconDecodes := false, glInitOk := true, vertexCompiles := true, fragmentCompiles := true,
    program := 3, programLinks := true, vao := 1, vbo := 1 }

/-- A display whose primary monitor runs at 1920x1080. -/
def Display.fullHD : Display := ⟨⟨0⟩, ⟨1920, 1080⟩⟩

end Program
/-! ## Camera movement -/

/-- Two vectors with equal components are equal. -/
theorem Vec3.ext_components {α : Type} (u v : Vec3 α) (hx : u.x = v.x) (hy : u.y = v.y)
    (hz : u.z = v.z) : u = v := by
  cases u; cases v; simp_all

/-- C6: every `W` key event, whatever its action and modifiers, adds `cameraFront * camerSpeed`
to `cameraPos`, every `S` key event subtracts it, and neither changes `cameraFront` or
`cameraUp`; from the initial camera one `W` event moves the position to `(0, 0, 3 - 0.05)`. -/
theorem keyW_keyS_move_along_front {α : Type} [LinearOrderedField α] (sqrt : α → α) (d : Display)
    (s : World α) (scancode action mods : Int) :
    ((KeyCallback sqrt d s KeyW scancode action mods).cameraPos
        = ⟨s.cameraPos.x + s.cameraFront.x * 0.05, s.cameraPos.y + s.cameraFront.y * 0.05,
           s.cameraPos.z + s.cameraFront.z * 0.05⟩
      ∧ (KeyCallback sqrt d s KeyW scancode action mods).cameraFront = s.cameraFront
      ∧ (KeyCallback sqrt d s KeyW scancode action mods).cameraUp = s.cameraUp)
    ∧ ((KeyCallback sqrt d s KeyS scancode action mods).cameraPos
        = ⟨s.cameraPos.x - s.cameraFront.x * 0.05, s.cameraPos.y - s.cameraFront.y * 0.05,
           s.cameraPos.z - s.cameraFront.z * 0.05⟩
      ∧ (KeyCallback sqrt d s KeyS scancode action mods).cameraFront = s.cameraFront
      ∧ (KeyCallback sqrt d s KeyS scancode action mods).cameraUp = s.cameraUp)
    ∧ (World.initial : World α).cameraPos = ⟨0, 0, 3⟩
    ∧ (World.initial : World α).cameraFront = ⟨0, 0, -1⟩
    ∧ (World.initial : World α).cameraUp = ⟨0, 1, 0⟩
    ∧ (KeyCallback sqrt d (World.initial : World α) KeyW scancode action mods).cameraPos
        = ⟨0, 0, 3 - 0.05⟩ := by
  refine ⟨⟨?_, ?_, ?_⟩, ⟨?_, ?_, ?_⟩, ?_, ?_, ?_, ?_⟩
  · simp [KeyCallback, KeyW, KeyEscape, KeyF11, Vec3.Add, Vec3.Mul, camerSpeed]
  · simp [KeyCallback, KeyW, KeyEscape, KeyF11]
  · simp [KeyCallback, KeyW, KeyEscape, KeyF11]
  · simp [KeyCallback, KeyW, KeyS, KeyEscape, KeyF11, Vec3.Sub, Vec3.Mul, camerSpeed]
  · simp [KeyCallback, KeyW, KeyS, KeyEscape, KeyF11]
  · simp [KeyCallback, KeyW, KeyS, KeyEscape, KeyF11]
  · norm_num [World.initial]
  · norm_num [World.initial]
  · norm_num [World.initial]
  · norm_num [KeyCallback, KeyW, KeyEscape, KeyF11, Vec3.Add, Vec3.Mul, camerSpeed, World.initial]

/-- Length of the horizontal vector `(-fz, 0, fx)` scaled to unit length and then by `c ≥ 0`. -/
theorem len_scaled_unit (fx fz c : ℝ) (hc : 0 ≤ c) (hne : fx ≠ 0 ∨ fz ≠ 0) :
    Real.sqrt ((-fz * (1 / Real.sqrt (fz * fz + fx * fx)) * c) * (-fz * (1 / Real.sqrt (fz * fz + fx * fx)) * c)
      + (fx * (1 / Real.sqrt (fz * fz + fx * fx)) * c) * (fx * (1 / Real.sqrt (fz * fz + fx * fx)) * c)) = c := by
  have hpos : 0 < fz * fz + fx * fx := by
    rcases hne with h | h
    · have := mul_self_pos.mpr h
      nlinarith [mul_self_nonneg fz]
    · have := mul_self_pos.mpr h
      nlinarith [mul_self_nonneg fx]
  have hL : 0 < Real.sqrt (fz * fz + fx * fx) := Real.sqrt_pos.mpr hpos
  have hsq : Real.sqrt (fz * fz + fx * fx) * Real.sqrt (fz * fz + fx * fx) = fz * fz + fx * fx :=
    Real.mul_self_sqrt hpos.le
  have key : (-fz * (1 / Real.sqrt (fz * fz + fx * fx)) * c) * (-fz * (1 / Real.sqrt (fz * fz + fx * fx)) * c)
      + (fx * (1 / Real.sqrt (fz * fz + fx * fx)) * c) * (fx * (1 / Real.sqrt (fz * fz + fx * fx)) * c) = c * c := by
    field_simp
    nlinarith [hsq]
  rw [key]
  exact Real.sqrt_mul_self hc

/-- With `up = (0, 1, 0)` and `front.y = 0` the cross product `front x up` is `(-fz, 0, fx)`
and its length is `sqrt (fx^2 + fz^2)`. -/
theorem cross_up_components (f u : Vec3 ℝ) (hup : u = ⟨0, 1, 0⟩) (hy : f.y = 0) :
    f.Cross u = ⟨-f.z, 0, f.x⟩
    ∧ (f.Cross u).Len Real.sqrt = Real.sqrt (f.x ^ 2 + f.z ^ 2) := by
  subst hup
  have hc : f.Cross ⟨0, 1, 0⟩ = ⟨-f.z, 0, f.x⟩ := by
    apply Vec3.ext_components <;> simp [Vec3.Cross, hy]
  refine ⟨hc, ?_⟩
  rw [hc]
  simp only [Vec3.Len]
  congr 1
  ring

/-- C7: with `cameraUp = (0, 1, 0)` and a non-zero `cameraFront = (fx, 0, fz)` without
vertical component, a `D` key event adds `normalize(cross(cameraFront, cameraUp)) * camerSpeed`
to `cameraPos`, which by components is the move from `(x, y, z)` to
`(x - fz / |f| * 0.05, y, z + fx / |f| * 0.05)` with `|f| = sqrt (fx^2 + fz^2)`: the
displacement has length exactly `camerSpeed` and the y-component is unchanged; an `A` key
event subtracts the same vector, giving `(x + fz / |f| * 0.05, y, z - fx / |f| * 0.05)`
(over the reals). -/
theorem strafe_moves_by_speed (d : Display) (s : World ℝ) (scancode action mods : Int)
    (hup : s.cameraUp = ⟨0, 1, 0⟩) (hy : s.cameraFront.y = 0)
    (hne : s.cameraFront ≠ ⟨0, 0, 0⟩) :
    ((KeyCallback Real.sqrt d s KeyD scancode action mods).cameraPos
        = s.cameraPos.Add (((s.cameraFront.Cross s.cameraUp).Normalize Real.sqrt).Mul camerSpeed)
      ∧ (((KeyCallback Real.sqrt d s KeyD scancode action mods).cameraPos).Sub s.cameraPos).Len
          Real.sqrt = camerSpeed
      ∧ (KeyCallback Real.sqrt d s KeyD scancode action mods).cameraPos.y = s.cameraPos.y)
    ∧ ((KeyCallback Real.sqrt d s KeyA scancode action mods).cameraPos
        = s.cameraPos.Sub (((s.cameraFront.Cross s.cameraUp).Normalize Real.sqrt).Mul camerSpeed)
      ∧ (s.cameraPos.Sub ((KeyCallback Real.sqrt d s KeyA scancode action mods).cameraPos)).Len
          Real.sqrt = camerSpeed
      ∧ (KeyCallback Real.sqrt d s KeyA scancode action mods).cameraPos.y = s.cameraPos.y)
    ∧ (camerSpeed : ℝ) = 0.05
    ∧ (KeyCallback Real.sqrt d s KeyD scancode action mods).cameraPos
        = ⟨s.cameraPos.x
             - s.cameraFront.z / Real.sqrt (s.cameraFront.x ^ 2 + s.cameraFront.z ^ 2) * 0.05,
           s.cameraPos.y,
           s.cameraPos.z
             + s.cameraFront.x / Real.sqrt (s.cameraFront.x ^ 2 + s.cameraFront.z ^ 2) * 0.05⟩
    ∧ (KeyCallback Real.sqrt d s KeyA scancode action mods).cameraPos
        = ⟨s.cameraPos.x
             + s.cameraFront.z / Real.sqrt (s.cameraFront.x ^ 2 + s.cameraFront.z ^ 2) * 0.05,
           s.cameraPos.y,
           s.cameraPos.z
             - s.cameraFront.x / Real.sqrt (s.cameraFront.x ^ 2 + s.cameraFront.z ^ 2) * 0.05⟩
    ∧ (KeyCallback Real.sqrt d s KeyD scancode action mods).cameraFront = s.cameraFront
    ∧ (KeyCallback Real.sqrt d s KeyD scancode action mods).cameraUp = s.cameraUp
    ∧ (KeyCallback Real.sqrt d s KeyA scancode action mods).cameraFront = s.cameraFront
    ∧ (KeyCallback Real.sqrt d s KeyA scancode action mods).cameraUp = s.cameraUp := by
  have hxz : s.cameraFront.x ≠ 0 ∨ s.cameraFront.z ≠ 0 := by
    by_contra hcon
    push_neg at hcon
    exact hne (Vec3.ext_components _ _ hcon.1 hy hcon.2)
  have hc : (0 : ℝ) ≤ camerSpeed := by norm_num [camerSpeed]
  have hlen := len_scaled_unit s.cameraFront.x s.cameraFront.z camerSpeed hc hxz
  have hD : (KeyCallback Real.sqrt d s KeyD scancode action mods).cameraPos
      = s.cameraPos.Add (((s.cameraFront.Cross s.cameraUp).Normalize Real.sqrt).Mul camerSpeed) := by
    simp [KeyCallback, KeyD, KeyA, KeyS, KeyW, KeyEscape, KeyF11]
  have hA : (KeyCallback Real.sqrt d s KeyA scancode action mods).cameraPos
      = s.cameraPos.Sub (((s.cameraFront.Cross s.cameraUp).Normalize Real.sqrt).Mul camerSpeed) := by
    simp [KeyCallback, KeyD, KeyA, KeyS, KeyW, KeyEscape, KeyF11]
  obtain ⟨hcross, hcrossLen⟩ := cross_up_components s.cameraFront s.cameraUp hup hy
  have hn : ((s.cameraFront.Cross s.cameraUp).Normalize Real.sqrt).Mul camerSpeed
      = ⟨-(s.cameraFront.z / Real.sqrt (s.cameraFront.x ^ 2 + s.cameraFront.z ^ 2) * 0.05), 0,
         s.cameraFront.x / Real.sqrt (s.cameraFront.x ^ 2 + s.cameraFront.z ^ 2) * 0.05⟩ := by
    have hN : (s.cameraFront.Cross s.cameraUp).Normalize Real.sqrt
        = ⟨-s.cameraFront.z * (1 / Real.sqrt (s.cameraFront.x ^ 2 + s.cameraFront.z ^ 2)),
           0 * (1 / Real.sqrt (s.cameraFront.x ^ 2 + s.cameraFront.z ^ 2)),
           s.cameraFront.x * (1 / Real.sqrt (s.cameraFront.x ^ 2 + s.cameraFront.z ^ 2))⟩ := by
      simp only [Vec3.Normalize, hcrossLen]
      rw [hcross]
    rw [hN]
    apply Vec3.ext_components
    · simp only [Vec3.Mul, camerSpeed]; ring
    · simp only [Vec3.Mul, camerSpeed]; ring
    · simp only [Vec3.Mul, camerSpeed]; ring
  refine ⟨⟨hD, ?_, ?_⟩, ⟨hA, ?_, ?_⟩, by simp [camerSpeed], ?_, ?_, ?_, ?_, ?_, ?_⟩
  · rw [hD]
    simp only [Vec3.Len, Vec3.Sub, Vec3.Add, Vec3.Mul, Vec3.Normalize, Vec3.Cross, hup, hy]
    refine Eq.trans ?_ hlen
    congr 1
    ring_nf
  · rw [hD]
    simp [Vec3.Add, Vec3.Mul, Vec3.Normalize, Vec3.Cross, hup, hy]
  · rw [hA]
    simp only [Vec3.Len, Vec3.Sub, Vec3.Add, Vec3.Mul, Vec3.Normalize, Vec3.Cross, hup, hy]
    refine Eq.trans ?_ hlen
    congr 1
    ring_nf
  · rw [hA]
    simp [Vec3.Sub, Vec3.Mul, Vec3.Normalize, Vec3.Cross, hup, hy]
  · rw [hD, hn]
    apply Vec3.ext_components
    · simp only [Vec3.Add]; ring
    · simp only [Vec3.Add]; ring
    · simp only [Vec3.Add]
  · rw [hA, hn]
    apply Vec3.ext_components
    · simp only [Vec3.Sub]; ring
    · simp only [Vec3.Sub]; ring
    · simp only [Vec3.Sub]
  · simp [KeyCallback, KeyD, KeyA, KeyS, KeyW, KeyEscape, KeyF11]
  · simp [KeyCallback, KeyD, KeyA, KeyS, KeyW, KeyEscape, KeyF11]
  · simp [KeyCallback, KeyD, KeyA, KeyS, KeyW, KeyEscape, KeyF11]
  · simp [KeyCallback, KeyD, KeyA, KeyS, KeyW, KeyEscape, KeyF11]

/-- C7 at the initial camera: front `(0, 0, -1)`, up `(0, 1, 0)`; a `D` event moves the
position from `(0, 0, 3)` to `(0.05, 0, 3)` and an `A` event to `(-0.05, 0, 3)`. -/
theorem strafe_moves_by_speed_witness :
    (World.initial : World ℝ).cameraFront.y = 0
    ∧ (((KeyCallback Real.sqrt ⟨⟨0⟩, ⟨1920, 1080⟩⟩ (World.initial : World ℝ) KeyD 40 Press 0).cameraPos).Sub
        (World.initial : World ℝ).cameraPos).Len Real.sqrt = camerSpeed
    ∧ (KeyCallback Real.sqrt ⟨⟨0⟩, ⟨1920, 1080⟩⟩ (World.initial : World ℝ) KeyD 40 Press 0).cameraPos
        = ⟨0.05, 0, 3⟩
    ∧ (KeyCallback Real.sqrt ⟨⟨0⟩, ⟨1920, 1080⟩⟩ (World.initial : World ℝ) KeyA 38 Press 0).cameraPos
        = ⟨-0.05, 0, 3⟩ := by
  have hup : (World.initial : World ℝ).cameraUp = ⟨0, 1, 0⟩ := by norm_num [World.initial]
  have hy : (World.initial : World ℝ).cameraFront.y = 0 := by norm_num [World.initial]
  have hne : (World.initial : World ℝ).cameraFront ≠ ⟨0, 0, 0⟩ := by
    intro h
    have hz := congrArg Vec3.z h
    norm_num [World.initial] at hz
  have hsq : Real.sqrt ((World.initial : World ℝ).cameraFront.x ^ 2
      + (World.initial : World ℝ).cameraFront.z ^ 2) = 1 := by
    norm_num [World.initial]
  have hD := strafe_moves_by_speed ⟨⟨0⟩, ⟨1920, 1080⟩⟩ World.initial 40 Press 0 hup hy hne
  have hA := strafe_moves_by_speed ⟨⟨0⟩, ⟨1920, 1080⟩⟩ World.initial 38 Press 0 hup hy hne
  refine ⟨hy, hD.1.2.1, ?_, ?_⟩
  · rw [hD.2.2.2.1, hsq]
    norm_num [World.initial]
  · rw [hA.2.2.2.2.1, hsq]
    norm_num [World.initial]

/-! ## Callbacks and the running flag -/

/-- No branch of `KeyCallback` assigns `IsRunning`. -/
theorem KeyCallback_isRunning {α : Type} [Field α] (sqrt : α → α) (d : Display) (s : World α)
    (key scancode action mods : Int) :
    (KeyCallback sqrt d s key scancode action mods).IsRunning = s.IsRunning := by
  unfold KeyCallback
  split_ifs <;> simp [World.onWindow]
  split_ifs <;> rfl

/-- A callback can only clear `IsRunning`, never set it. -/
theorem dispatch_isRunning_of_false {α : Type} [Field α] (sqrt : α → α) (d : Display)
    (s : World α) (e : Event α) (h : s.IsRunning = false) :
    (dispatch sqrt d s e).IsRunning = false := by
  cases e <;>
    simp [dispatch, CloseCallback, SizeCallback, MouseButtonCallback, CursorPosCallback,
      CursorEnterCallback, ScrollCallback, World.emit, KeyCallback_isRunning, h]

/-- A sequence of callbacks keeps a cleared `IsRunning` cleared. -/
theorem dispatchAll_isRunning_of_false {α : Type} [Field α] (sqrt : α → α) (d : Display)
    (events : List (Event α)) (s : World α) (h : s.IsRunning = false) :
    (dispatchAll sqrt d s events).IsRunning = false := by
  induction events generalizing s with
  | nil => simpa [dispatchAll] using h
  | cons e rest ih =>
    have := ih (dispatch sqrt d s e) (dispatch_isRunning_of_false sqrt d s e h)
    simpa [dispatchAll] using this

/-- The loop does not enter its body when `IsRunning` is false. -/
theorem RunLoop_of_not_running {α : Type} [Field α] (sqrt : α → α) (d : Display)
    (polls : List (List (Event α))) (s : World α) (h : s.IsRunning = false) :
    RunLoop sqrt d polls s = ⟨s, .ok, 0⟩ := by
  cases polls <;> simp [RunLoop, h]

/-- C9: from a state with `IsRunning = false`, any finite sequence of callback invocations
leaves `IsRunning` false; `RunLoop` started there runs its body zero times and returns the
state unchanged, and `main` then goes on to `Shutdown`. -/
theorem stopped_is_terminal {α : Type} [Field α] (sqrt : α → α) (d : Display) (s : World α)
    (events : List (Event α)) (polls : List (List (Event α))) (h : s.IsRunning = false) :
    (dispatchAll sqrt d s events).IsRunning = false
    ∧ RunLoop sqrt d polls s = ⟨s, .ok, 0⟩
    ∧ mainAfterInitialize sqrt d polls true s = ⟨(Shutdown s).1, (Shutdown s).2, 0⟩ := by
  refine ⟨dispatchAll_isRunning_of_false sqrt d events s h, RunLoop_of_not_running sqrt d polls s h, ?_⟩
  simp [mainAfterInitialize, RunLoop_of_not_running sqrt d polls s h]

/-- C9 at the initial state and at a started game after a close event, with one event of
every kind. -/
theorem stopped_is_terminal_witness :
    (World.initial : World ℝ).IsRunning = false
    ∧ (dispatchAll Real.sqrt ⟨⟨0⟩, ⟨1920, 1080⟩⟩ (World.initial : World ℝ)
        [.close, .size 800 600, .key KeyF11 95 Press 0, .key KeyW 25 Repeat 0,
         .mouseButton 0 1 0, .cursorPos 10 20, .cursorEnter true, .scroll 0 1]).IsRunning = false
    ∧ RunLoop Real.sqrt ⟨⟨0⟩, ⟨1920, 1080⟩⟩ [[.key KeyW 25 Press 0]] (World.initial : World ℝ)
        = ⟨World.initial, .ok, 0⟩
    ∧ (CloseCallback (Initialize Env.allOk (World.initial : World ℝ)).2).IsRunning = false
    ∧ (dispatchAll Real.sqrt Display.fullHD
        (CloseCallback (Initialize Env.allOk (World.initial : World ℝ)).2)
        [.close, .size 800 600, .key KeyF11 95 Press 0, .key KeyEscape 9 Press 0,
         .key KeyW 25 Repeat 0, .mouseButton 0 1 0, .cursorPos 10 20, .cursorEnter true,
         .scroll 0 1]).IsRunning = false
    ∧ RunLoop Real.sqrt Display.fullHD [[.key KeyW 25 Press 0], []]
        (CloseCallback (Initialize Env.allOk (World.initial : World ℝ)).2)
        = ⟨CloseCallback (Initialize Env.allOk (World.initial : World ℝ)).2, .ok, 0⟩ :=
  ⟨rfl,
   (stopped_is_terminal Real.sqrt ⟨⟨0⟩, ⟨1920, 1080⟩⟩ World.initial
      [.close, .size 800 600, .key KeyF11 95 Press 0, .key KeyW 25 Repeat 0,
       .mouseButton 0 1 0, .cursorPos 10 20, .cursorEnter true, .scroll 0 1]
      [[.key KeyW 25 Press 0]] rfl).1,
   (stopped_is_terminal Real.sqrt ⟨⟨0⟩, ⟨1920, 1080⟩⟩ World.initial []
      [[.key KeyW 25 Press 0]] rfl).2.1,
   rfl,
   (stopped_is_terminal Real.sqrt Display.fullHD
      (CloseCallback (Initialize Env.allOk (World.initial : World ℝ)).2)
      [.close, .size 800 600, .key KeyF11 95 Press 0, .key KeyEscape 9 Press 0,
       .key KeyW 25 Repeat 0, .mouseButton 0 1 0, .cursorPos 10 20, .cursorEnter true,
       .scroll 0 1]
      [[.key KeyW 25 Press 0], []] rfl).1,
   (stopped_is_terminal Real.sqrt Display.fullHD
      (CloseCallback (Initialize Env.allOk (World.initial : World ℝ)).2) []
      [[.key KeyW 25 Press 0], []] rfl).2.1⟩

/-! ## Escape key -/

/-- C1 (escape half fails): after a successful startup `IsRunning` is true and `CloseCallback`
clears it, but `KeyCallback` with `KeyEscape` and `Press` only sets the window's close flag,
which `RunLoop` never reads: `IsRunning` stays true for every state, and the loop keeps
drawing (three polls, the first one delivering the key press, give three iterations and six
draw calls), whereas a close event in the first poll stops it after one iteration. -/
theorem escape_press_leaves_loop_running :
    (Initialize Env.allOk (World.initial : World ℝ)).2.IsRunning = true
    ∧ (CloseCallback (Initialize Env.allOk (World.initial : World ℝ)).2).IsRunning = false
    ∧ (KeyCallback Real.sqrt Display.fullHD (Initialize Env.allOk (World.initial : World ℝ)).2
        KeyEscape 9 Press 0).IsRunning = true
    ∧ (KeyCallback Real.sqrt Display.fullHD (Initialize Env.allOk (World.initial : World ℝ)).2
        KeyEscape 9 Press 0).game.MWindow.map Window.shouldClose = some true
    ∧ (∀ (s : World ℝ) (scancode mods : Int),
        (KeyCallback Real.sqrt Display.fullHD s KeyEscape scancode Press mods).IsRunning = s.IsRunning)
    ∧ (RunLoop Real.sqrt Display.fullHD [[.key KeyEscape 9 Press 0], [], []]
        (Initialize Env.allOk (World.initial : World ℝ)).2).iterations = 3
    ∧ (RunLoop Real.sqrt Display.fullHD [[.key KeyEscape 9 Press 0], [], []]
        (Initialize Env.allOk (World.initial : World ℝ)).2).status = .outOfFuel
    ∧ drawCalls (RunLoop Real.sqrt Display.fullHD [[.key KeyEscape 9 Press 0], [], []]
        (Initialize Env.allOk (World.initial : World ℝ)).2).world.trace = 6
    ∧ (RunLoop Real.sqrt Display.fullHD [[.close], [], []]
        (Initialize Env.allOk (World.initial : World ℝ)).2).iterations = 1
    ∧ (RunLoop Real.sqrt Display.fullHD [[.close], [], []]
        (Initialize Env.allOk (World.initial : World ℝ)).2).status = .ok := by
  refine ⟨rfl, rfl, rfl, rfl, fun s sc m => KeyCallback_isRunning _ _ s _ _ _ _, rfl, rfl, ?_, rfl, rfl⟩
  rfl

/-! ## One iteration of the frame loop -/

/-- What `KeyCallback` leaves alone: the trace, the GPU handles, the projection, and whether
a window exists. -/
theorem KeyCallback_frame {α : Type} [Field α] (sqrt : α → α) (d : Display) (s : World α)
    (key scancode action mods : Int) :
    (KeyCallback sqrt d s key scancode action mods).trace = s.trace
    ∧ (KeyCallback sqrt d s key scancode action mods).game.Program = s.game.Program
    ∧ (KeyCallback sqrt d s key scancode action mods).game.VAO = s.game.VAO
    ∧ (KeyCallback sqrt d s key scancode action mods).projection = s.projection
    ∧ (KeyCallback sqrt d s key scancode action mods).game.MWindow.isSome = s.game.MWindow.isSome := by
  unfold KeyCallback
  split_ifs <;> simp [World.onWindow]
  split_ifs <;> simp

/-- A callback writes at most lines of output to the trace and keeps the GPU handles, the
projection and the existence of the window. -/
theorem dispatch_frame {α : Type} [Field α] (sqrt : α → α) (d : Display) (s : World α)
    (e : Event α) :
    (∃ cb : List (Effect α), (dispatch sqrt d s e).trace = s.trace ++ cb
        ∧ ∀ x ∈ cb, ∃ l, x = Effect.print l)
    ∧ (dispatch sqrt d s e).game.Program = s.game.Program
    ∧ (dispatch sqrt d s e).game.VAO = s.game.VAO
    ∧ (dispatch sqrt d s e).projection = s.projection
    ∧ (dispatch sqrt d s e).game.MWindow.isSome = s.game.MWindow.isSome := by
  cases e with
  | key key scancode action mods =>
    obtain ⟨h1, h2, h3, h4, h5⟩ := KeyCallback_frame sqrt d s key scancode action mods
    exact ⟨⟨[], by simpa [dispatch] using h1, by simp⟩, h2, h3, h4, h5⟩
  | close => exact ⟨⟨[], by simp [dispatch, CloseCallback], by simp⟩, rfl, rfl, rfl, rfl⟩
  | size width height =>
    exact ⟨⟨[.print (.size width height)], rfl, by simp⟩, rfl, rfl, rfl, rfl⟩
  | mouseButton button action mods =>
    exact ⟨⟨[.print (.mouseButton button action)], rfl, by simp⟩, rfl, rfl, rfl, rfl⟩
  | cursorPos xpos ypos =>
    exact ⟨⟨[.print (.cursorPos xpos ypos)], rfl, by simp⟩, rfl, rfl, rfl, rfl⟩
  | cursorEnter entered =>
    exact ⟨⟨[.print (.cursorEntered entered)], rfl, by simp⟩, rfl, rfl, rfl, rfl⟩
  | scroll xoff yoff =>
    exact ⟨⟨[.print (.scroll xoff yoff)], rfl, by simp⟩, rfl, rfl, rfl, rfl⟩

/-- The same for a sequence of callbacks. -/
theorem dispatchAll_frame {α : Type} [Field α] (sqrt : α → α) (d : Display)
    (events : List (Event α)) (s : World α) :
    (∃ cb : List (Effect α), (dispatchAll sqrt d s events).trace = s.trace ++ cb
        ∧ ∀ x ∈ cb, ∃ l, x = Effect.print l)
    ∧ (dispatchAll sqrt d s events).game.Program = s.game.Program
    ∧ (dispatchAll sqrt d s events).game.VAO = s.game.VAO
    ∧ (dispatchAll sqrt d s events).projection = s.projection
    ∧ (dispatchAll sqrt d s events).game.MWindow.isSome = s.game.MWindow.isSome := by
  induction events generalizing s with
  | nil => exact ⟨⟨[], by simp [dispatchAll], by simp⟩, rfl, rfl, rfl, rfl⟩
  | cons e rest ih =>
    obtain ⟨⟨cb1, ht1, hp1⟩, a1, b1, c1, d1⟩ := dispatch_frame sqrt d s e
    obtain ⟨⟨cb2, ht2, hp2⟩, a2, b2, c2, d2⟩ := ih (dispatch sqrt d s e)
    have hstep : dispatchAll sqrt d s (e :: rest) = dispatchAll sqrt d (dispatch sqrt d s e) rest := rfl
    rw [hstep]
    refine ⟨⟨cb1 ++ cb2, ?_, ?_⟩, a2.trans a1, b2.trans b1, c2.trans c1, d2.trans d1⟩
    · rw [ht2, ht1, List.append_assoc]
    · intro x hx
      rcases List.mem_append.mp hx with h | h
      · exact hp1 x h
      · exact hp2 x h

/-- Lines of output are no draw calls. -/
theorem drawCalls_prints {α : Type} [Field α] (cb : List (Effect α))
    (h : ∀ x ∈ cb, ∃ l, x = Effect.print l) : drawCalls cb = 0 := by
  unfold drawCalls
  rw [List.countP_eq_zero]
  intro x hx
  obtain ⟨l, rfl⟩ := h x hx
  simp

/-- C2 (amended): with a window present, one pass through the loop body appends to the trace
clear colour, clear, poll, the lines printed by the callbacks run during the poll, the
uploads of the view, model and projection uniforms, then the bind / draw / unbind sequence
of `GenerateOutput` twice (called by `Update` and again by `RunLoop`), each drawing 3
vertices as `TRIANGLES` from index 0, and last the buffer swap: exactly two draw calls, both
after the poll and the uploads and before the swap. -/
theorem iteration_trace_two_draws {α : Type} [Field α] (sqrt : α → α) (d : Display)
    (pending : List (Event α)) (s : World α) (w : Window) (hw : s.game.MWindow = some w) :
    ∃ cb : List (Effect α), (∀ x ∈ cb, ∃ l, x = Effect.print l)
      ∧ (iteration sqrt d pending s).2 = .ok
      ∧ (iteration sqrt d pending s).1.trace
          = s.trace ++ [.clearColor, .clear, .pollEvents] ++ cb ++
            [.getUniformLocation s.game.Program .view,
             .uniformMatrix4fv .view
               (Mat4.LookAtV (ProcessInput sqrt d pending (s.emit [.clearColor, .clear])).cameraPos
                 ((ProcessInput sqrt d pending (s.emit [.clearColor, .clear])).cameraPos.Add
                   (ProcessInput sqrt d pending (s.emit [.clearColor, .clear])).cameraFront)
                 (ProcessInput sqrt d pending (s.emit [.clearColor, .clear])).cameraUp),
             .getUniformLocation s.game.Program .model,
             .uniformMatrix4fv .model Mat4.Ident4,
             .getUniformLocation s.game.Program .projection,
             .uniformMatrix4fv .projection s.projection,
             .useProgram s.game.Program, .bindVertexArray s.game.VAO,
             .drawArrays .TRIANGLES 0 3, .bindVertexArray 0,
             .useProgram s.game.Program, .bindVertexArray s.game.VAO,
             .drawArrays .TRIANGLES 0 3, .bindVertexArray 0,
             .swapBuffers]
      ∧ drawCalls (iteration sqrt d pending s).1.trace = drawCalls s.trace + 2 := by
  obtain ⟨⟨cb, ht, hp⟩, hP, hV, hproj, hwin⟩ :=
    dispatchAll_frame sqrt d pending (s.emit [.clearColor, .clear, .pollEvents])
  have hPI : ProcessInput sqrt d pending (s.emit [.clearColor, .clear])
      = dispatchAll sqrt d (s.emit [.clearColor, .clear, .pollEvents]) pending := by
    simp [ProcessInput, World.emit, hw]
  have hsome : (ProcessInput sqrt d pending (s.emit [.clearColor, .clear])).game.MWindow.isSome
      = true := by
    rw [hPI, hwin]; simp [World.emit, hw]
  have e1 : (ProcessInput sqrt d pending (s.emit [.clearColor, .clear])).game.Program
      = s.game.Program := by rw [hPI, hP]; rfl
  have e2 : (ProcessInput sqrt d pending (s.emit [.clearColor, .clear])).game.VAO
      = s.game.VAO := by rw [hPI, hV]; rfl
  have e3 : (ProcessInput sqrt d pending (s.emit [.clearColor, .clear])).projection
      = s.projection := by rw [hPI, hproj]; rfl
  have e4 : (ProcessInput sqrt d pending (s.emit [.clearColor, .clear])).trace
      = s.trace ++ [.clearColor, .clear, .pollEvents] ++ cb := by
    rw [hPI, ht]; simp [World.emit]
  have hit : iteration sqrt d pending s
      = iterationTail (ProcessInput sqrt d pending (s.emit [.clearColor, .clear])) := rfl
  rw [hit]
  generalize ProcessInput sqrt d pending (s.emit [.clearColor, .clear]) = s2 at hsome e1 e2 e3 e4 ⊢
  obtain ⟨w2, hw2⟩ := Option.isSome_iff_exists.mp hsome
  refine ⟨cb, hp, ?_, ?_, ?_⟩
  · simp [iterationTail, Update, GenerateOutput, World.emit, hw2]
  · simp [iterationTail, Update, GenerateOutput, World.emit, hw2, e1, e2, e3, e4]
  · simp [iterationTail, Update, GenerateOutput, World.emit, hw2, e1, e2, e3, e4, drawCalls,
      List.countP_append, List.countP_cons]
    have := drawCalls_prints cb hp
    simpa [drawCalls] using this

/-- C2 as stated fails: after a successful startup, one iteration with no pending events adds
two draw calls to the trace, not one. -/
theorem iteration_not_single_draw :
    drawCalls (Initialize Env.allOk (World.initial : World ℝ)).2.trace = 0
    ∧ drawCalls (iteration Real.sqrt Display.fullHD []
        (Initialize Env.allOk (World.initial : World ℝ)).2).1.trace = 2
    ∧ ¬ (drawCalls (iteration Real.sqrt Display.fullHD []
        (Initialize Env.allOk (World.initial : World ℝ)).2).1.trace = 1) := by
  refine ⟨rfl, rfl, ?_⟩
  have h : drawCalls (iteration Real.sqrt Display.fullHD []
      (Initialize Env.allOk (World.initial : World ℝ)).2).1.trace = 2 := rfl
  rw [h]
  decide

/-- C2 (amended) at a started game, with a key press and a resize pending at the poll. -/
theorem iteration_trace_two_draws_witness :
    (Initialize Env.allOk (World.initial : World ℝ)).2.game.MWindow
        = some (createdWindow Env.allOk (World.initial : World ℝ))
    ∧ (iteration Real.sqrt Display.fullHD [.key KeyD 40 Press 0, .size 800 600]
        (Initialize Env.allOk (World.initial : World ℝ)).2).2 = .ok
    ∧ drawCalls (iteration Real.sqrt Display.fullHD [.key KeyD 40 Press 0, .size 800 600]
        (Initialize Env.allOk (World.initial : World ℝ)).2).1.trace
        = drawCalls (Initialize Env.allOk (World.initial : World ℝ)).2.trace + 2 := by
  obtain ⟨_, _, hok, _, hdraws⟩ := iteration_trace_two_draws Real.sqrt Display.fullHD
    [.key KeyD 40 Press 0, .size 800 600] (Initialize Env.allOk (World.initial : World ℝ)).2
    (createdWindow Env.allOk (World.initial : World ℝ)) rfl
  exact ⟨rfl, hok, hdraws⟩

/-! ## Startup and shutdown -/

/-- The three startup steps that can make `Initialize` fail. -/
theorem Initialize_result {α : Type} [Field α] (env : Env) (s : World α) :
    (Initialize env s).1 = (env.glfwInitOk && env.createWindowOk && env.glInitOk) := by
  unfold Initialize
  cases env.glfwInitOk <;> cases env.createWindowOk <;> cases env.glInitOk <;> simp

/-- C3 (fails when no window was created): if `glfw.Init` fails, or if `CreateWindow` fails,
`g.MWindow` is nil when `main` calls `Shutdown`; `Destroy` is called on the nil handle, the
program panics there and `glfw.Terminate` is never reached.  Only after a `gl.Init` failure
does `Shutdown` destroy an existing window and terminate. -/
theorem shutdown_after_failed_startup_hits_nil_window :
    ((main Real.sqrt Display.fullHD { Env.allOk with glfwInitOk := false } []).status = .panicked
      ∧ (main Real.sqrt Display.fullHD { Env.allOk with glfwInitOk := false } []).world.trace
          = [.print .glfwVersion, .glfwInit, .print .failedGlfw, .windowDestroy false])
    ∧ ((main Real.sqrt Display.fullHD { Env.allOk with createWindowOk := false } []).status = .panicked
      ∧ (main Real.sqrt Display.fullHD { Env.allOk with createWindowOk := false } []).world.trace.drop 13
          = [.print .failedWindow, .windowDestroy false])
    ∧ ((main Real.sqrt Display.fullHD { Env.allOk with glInitOk := false } []).status = .ok
      ∧ (main Real.sqrt Display.fullHD { Env.allOk with glInitOk := false } []).world.trace.drop 22
          = [.print .failedOpenGL, .windowDestroy true, .glfwTerminate])
    ∧ (∀ (env : Env) (polls : List (List (Event ℝ))),
        (env.glfwInitOk = false ∨ env.createWindowOk = false) →
        (main Real.sqrt Display.fullHD env polls).status = .panicked
        ∧ Effect.windowDestroy false ∈ (main Real.sqrt Display.fullHD env polls).world.trace
        ∧ Effect.glfwTerminate ∉ (main Real.sqrt Display.fullHD env polls).world.trace) := by
  refine ⟨⟨rfl, rfl⟩, ⟨rfl, rfl⟩, ⟨rfl, rfl⟩, ?_⟩
  intro env polls h
  have hres := Initialize_result env (World.initial : World ℝ)
  have hfalse : (Initialize env (World.initial : World ℝ)).1 = false := by
    rw [hres]
    rcases h with h | h <;> simp [h]
  have hmain : main Real.sqrt Display.fullHD env polls
      = ⟨(Shutdown (Initialize env (World.initial : World ℝ)).2).1,
         (Shutdown (Initialize env (World.initial : World ℝ)).2).2, 0⟩ := by
    simp [main, mainAfterInitialize, hfalse]
  rw [hmain]
  cases h1 : env.glfwInitOk
  · simp [Initialize, h1, World.emit, World.initial, Shutdown]
  · have h2 : env.createWindowOk = false := by simpa [h1] using h
    simp [Initialize, h1, h2, World.emit, World.setWindow, World.initial, Shutdown]


/-- C4: `Initialize` returns true exactly when `glfw.Init`, `CreateWindow` and `gl.Init` all
succeed, and then `IsRunning` is true; when one of them fails it returns false, leaves
`IsRunning` and the GPU handles as they were and adds no call of `initializeOpenGL` to the
trace (no shader is ever created); `main` then has `IsRunning = false`, never enters the body
of `RunLoop` and issues no draw call. -/
theorem startup_failure_aborts {α : Type} [Field α] (sqrt : α → α) (d : Display) (env : Env)
    (s : World α) (polls : List (List (Event α))) :
    ((Initialize env s).1 = true
        ↔ (env.glfwInitOk = true ∧ env.createWindowOk = true ∧ env.glInitOk = true))
    ∧ ((Initialize env s).1 = true → (Initialize env s).2.IsRunning = true)
    ∧ ((Initialize env s).1 = false →
        (Initialize env s).2.IsRunning = s.IsRunning
        ∧ (Initialize env s).2.game.Program = s.game.Program
        ∧ (Initialize env s).2.game.VAO = s.game.VAO
        ∧ (Initialize env s).2.game.VBO = s.game.VBO
        ∧ ∃ out : List (Effect α), (Initialize env s).2.trace = s.trace ++ out
            ∧ ∀ stage, Effect.createShader stage ∉ out)
    ∧ ((Initialize env (World.initial : World α)).1 = false →
        (Initialize env (World.initial : World α)).2.IsRunning = false
        ∧ (main sqrt d env polls).iterations = 0
        ∧ drawCalls (main sqrt d env polls).world.trace = 0) := by
  have hres := Initialize_result env s
  have hres0 := Initialize_result env (World.initial : World α)
  refine ⟨?_, ?_, ?_, ?_⟩
  · rw [hres]; simp [and_assoc]
  · intro h
    rw [hres] at h
    simp only [Bool.and_eq_true] at h
    obtain ⟨⟨h1, h2⟩, h3⟩ := h
    simp [Initialize, h1, h2, h3]
  · intro h
    rw [hres] at h
    cases h1 : env.glfwInitOk
    · refine ⟨by simp [Initialize, h1, World.emit], by simp [Initialize, h1, World.emit],
        by simp [Initialize, h1, World.emit], by simp [Initialize, h1, World.emit],
        ⟨[.print .glfwVersion, .glfwInit, .print .failedGlfw], by simp [Initialize, h1, World.emit],
          by simp⟩⟩
    · cases h2 : env.createWindowOk
      · refine ⟨by simp [Initialize, h1, h2, World.emit, World.setWindow],
          by simp [Initialize, h1, h2, World.emit, World.setWindow],
          by simp [Initialize, h1, h2, World.emit, World.setWindow],
          by simp [Initialize, h1, h2, World.emit, World.setWindow],
          ⟨_, by simp [Initialize, h1, h2, World.emit, World.setWindow]; rfl, by simp⟩⟩
      · have h3 : env.glInitOk = false := by simpa [h1, h2] using h
        cases hi : env.iconDecodes
        · refine ⟨by simp [Initialize, h1, h2, h3, hi, World.emit, World.setWindow],
            by simp [Initialize, h1, h2, h3, hi, World.emit, World.setWindow],
            by simp [Initialize, h1, h2, h3, hi, World.emit, World.setWindow],
            by simp [Initialize, h1, h2, h3, hi, World.emit, World.setWindow],
            ⟨_, by simp [Initialize, h1, h2, h3, hi, World.emit, World.setWindow]; rfl, by simp⟩⟩
        · refine ⟨by simp [Initialize, h1, h2, h3, hi, World.emit, World.setWindow],
            by simp [Initialize, h1, h2, h3, hi, World.emit, World.setWindow],
            by simp [Initialize, h1, h2, h3, hi, World.emit, World.setWindow],
            by simp [Initialize, h1, h2, h3, hi, World.emit, World.setWindow],
            ⟨_, by simp [Initialize, h1, h2, h3, hi, World.emit, World.setWindow]; rfl, by simp⟩⟩
  · intro h
    have hmain : main sqrt d env polls
        = ⟨(Shutdown (Initialize env (World.initial : World α)).2).1,
           (Shutdown (Initialize env (World.initial : World α)).2).2, 0⟩ := by
      simp [main, mainAfterInitialize, h]
    rw [hmain]
    rw [hres0] at h
    cases h1 : env.glfwInitOk
    · simp [Initialize, h1, World.emit, World.initial, Shutdown, drawCalls]
    · cases h2 : env.createWindowOk
      · simp [Initialize, h1, h2, World.emit, World.setWindow, World.initial, Shutdown, drawCalls]
      · have h3 : env.glInitOk = false := by simpa [h1, h2] using h
        cases hi : env.iconDecodes <;>
          simp [Initialize, h1, h2, h3, hi, World.emit, World.setWindow, World.initial, Shutdown,
            drawCalls]


/-! ## Shader and link failures -/

/-- C5 as stated fails on a link failure: `g.Program` was assigned the handle returned by
`gl.CreateProgram` before linking, so with handle 3 and a failing link `Initialize` returns
true with `IsRunning = true` while `Program` is 3, not 0 (`VAO` and `VBO` are 0). -/
theorem link_failure_keeps_program_handle :
    (Initialize { Env.allOk with programLinks := false } (World.initial : World ℝ)).1 = true
    ∧ (Initialize { Env.allOk with programLinks := false } (World.initial : World ℝ)).2.IsRunning = true
    ∧ (Initialize { Env.allOk with programLinks := false } (World.initial : World ℝ)).2.game.Program = 3
    ∧ (Initialize { Env.allOk with programLinks := false } (World.initial : World ℝ)).2.game.Program ≠ 0
    ∧ (Initialize { Env.allOk with programLinks := false } (World.initial : World ℝ)).2.game.VAO = 0
    ∧ (Initialize { Env.allOk with programLinks := false } (World.initial : World ℝ)).2.game.VBO = 0 := by
  refine ⟨rfl, rfl, rfl, ?_, rfl, rfl⟩
  have h : (Initialize { Env.allOk with programLinks := false }
      (World.initial : World ℝ)).2.game.Program = 3 := rfl
  rw [h]
  decide

/-- C5 (amended): when the three startup steps succeed but the vertex shader or the fragment
shader fails to compile, or the program fails to link, `initializeOpenGL` returns early (no
vertex array or buffer is generated, no data uploaded), `Initialize` still returns true with
`IsRunning = true`, `VAO` and `VBO` are 0, and `Program` is 0 after a compile failure and the
handle returned by `gl.CreateProgram` after a link failure. -/
theorem shader_failure_not_propagated {α : Type} [Field α] (env : Env)
    (h1 : env.glfwInitOk = true) (h2 : env.createWindowOk = true) (h3 : env.glInitOk = true)
    (hfail : env.vertexCompiles = false ∨ env.fragmentCompiles = false ∨ env.programLinks = false) :
    (Initialize env (World.initial : World α)).1 = true
    ∧ (Initialize env (World.initial : World α)).2.IsRunning = true
    ∧ (Initialize env (World.initial : World α)).2.game.VAO = 0
    ∧ (Initialize env (World.initial : World α)).2.game.VBO = 0
    ∧ (Initialize env (World.initial : World α)).2.game.Program
        = (if env.vertexCompiles = true ∧ env.fragmentCompiles = true then env.program % 2 ^ 32 else 0)
    ∧ Effect.genVertexArrays ∉ (Initialize env (World.initial : World α)).2.trace
    ∧ Effect.genBuffers ∉ (Initialize env (World.initial : World α)).2.trace
    ∧ ∀ bytes data, Effect.bufferData bytes data ∉ (Initialize env (World.initial : World α)).2.trace := by
  cases hi : env.iconDecodes <;> cases hv : env.vertexCompiles
  all_goals first
    | (simp [Initialize, initializeOpenGL, checkShaderCompileErrors, checkProgramLinkingErrors,
        h1, h2, h3, hi, hv, World.emit, World.setWindow, World.setProgram, World.initial]; done)
    | (cases hf : env.fragmentCompiles
       · simp [Initialize, initializeOpenGL, checkShaderCompileErrors, checkProgramLinkingErrors,
           h1, h2, h3, hi, hv, hf, World.emit, World.setWindow, World.setProgram, World.initial]
       · have hl : env.programLinks = false := by simpa [hv, hf] using hfail
         simp [Initialize, initializeOpenGL, checkShaderCompileErrors, checkProgramLinkingErrors,
           h1, h2, h3, hi, hv, hf, hl, World.emit, World.setWindow, World.setProgram,
           World.initial])

/-- C5 (amended) at a platform whose fragment shader does not compile. -/
theorem shader_failure_not_propagated_witness :
    (Initialize { Env.allOk with fragmentCompiles := false } (World.initial : World ℝ)).1 = true
    ∧ (Initialize { Env.allOk with fragmentCompiles := false } (World.initial : World ℝ)).2.IsRunning
        = true
    ∧ (Initialize { Env.allOk with fragmentCompiles := false } (World.initial : World ℝ)).2.game.Program
        = 0 := by
  have h := shader_failure_not_propagated (α := ℝ) { Env.allOk with fragmentCompiles := false }
    rfl rfl rfl (Or.inr (Or.inl rfl))
  exact ⟨h.1, h.2.1, by simpa [Env.allOk] using h.2.2.2.2.1⟩


/-! ## Fullscreen toggle -/

/-- C8 as stated fails: the window created at startup sits where the window system put it,
here at (100, 100); after two `F11` presses on a 1920x1080 display it is at the centred
position (448, 156), so the geometry is not what it was before the toggles. -/
theorem double_toggle_moves_window :
    (Initialize Env.allOk (World.initial : World ℝ)).2.game.MWindow
        = some ⟨false, none, 100, 100, 1024, 768⟩
    ∧ (KeyCallback Real.sqrt Display.fullHD
        (KeyCallback Real.sqrt Display.fullHD (Initialize Env.allOk (World.initial : World ℝ)).2
          KeyF11 95 Press 0) KeyF11 95 Press 0).game.MWindow
        = some ⟨false, none, 448, 156, 1024, 768⟩
    ∧ (KeyCallback Real.sqrt Display.fullHD
        (KeyCallback Real.sqrt Display.fullHD (Initialize Env.allOk (World.initial : World ℝ)).2
          KeyF11 95 Press 0) KeyF11 95 Press 0).game.MWindow
        ≠ (Initialize Env.allOk (World.initial : World ℝ)).2.game.MWindow := by
  have h0 : (Initialize Env.allOk (World.initial : World ℝ)).2.game.MWindow
      = some ⟨false, none, 100, 100, 1024, 768⟩ := rfl
  have h2 : (KeyCallback Real.sqrt Display.fullHD
      (KeyCallback Real.sqrt Display.fullHD (Initialize Env.allOk (World.initial : World ℝ)).2
        KeyF11 95 Press 0) KeyF11 95 Press 0).game.MWindow
      = some ⟨false, none, 448, 156, 1024, 768⟩ := rfl
  refine ⟨h0, h2, ?_⟩
  rw [h0, h2]
  decide

/-- C8 (amended): after two consecutive `F11` presses the `IsFullscreen` flag is what it was,
and the window has the placement the toggle assigns to that flag value: windowed and centred
on the primary monitor at `WindowWidth` x `WindowHeight` when the flag is false, on the
primary monitor at (0, 0) with its video-mode size when the flag is true.  So the geometry is
what it was before exactly when the window already had that placement, and a further pair of
presses changes nothing. -/
theorem double_toggle_restores_flag_and_canonical_placement {α : Type} [Field α]
    (sqrt : α → α) (d : Display) (s : World α) (w : Window) (sc1 m1 sc2 m2 : Int)
    (hw : s.game.MWindow = some w) :
    (KeyCallback sqrt d (KeyCallback sqrt d s KeyF11 sc1 Press m1) KeyF11 sc2 Press m2).IsFullscreen
        = s.IsFullscreen
    ∧ (KeyCallback sqrt d (KeyCallback sqrt d s KeyF11 sc1 Press m1) KeyF11 sc2 Press m2).game.MWindow
        = some (if s.IsFullscreen = true then
            w.SetMonitor (some d.primary) 0 0 d.mode.Width d.mode.Height
          else
            w.SetMonitor none (Int.tdiv (d.mode.Width - s.WindowWidth) 2)
              (Int.tdiv (d.mode.Height - s.WindowHeight) 2) s.WindowWidth s.WindowHeight)
    ∧ ((KeyCallback sqrt d (KeyCallback sqrt d s KeyF11 sc1 Press m1) KeyF11 sc2 Press m2).game.MWindow
          = s.game.MWindow
        ↔ w = (if s.IsFullscreen = true then
            w.SetMonitor (some d.primary) 0 0 d.mode.Width d.mode.Height
          else
            w.SetMonitor none (Int.tdiv (d.mode.Width - s.WindowWidth) 2)
              (Int.tdiv (d.mode.Height - s.WindowHeight) 2) s.WindowWidth s.WindowHeight))
    ∧ (KeyCallback sqrt d (KeyCallback sqrt d
          (KeyCallback sqrt d (KeyCallback sqrt d s KeyF11 sc1 Press m1) KeyF11 sc2 Press m2)
          KeyF11 sc1 Press m1) KeyF11 sc2 Press m2).game.MWindow
        = (KeyCallback sqrt d (KeyCallback sqrt d s KeyF11 sc1 Press m1) KeyF11 sc2 Press m2).game.MWindow := by
  have hwin : (KeyCallback sqrt d (KeyCallback sqrt d s KeyF11 sc1 Press m1) KeyF11 sc2 Press m2).game.MWindow
      = some (if s.IsFullscreen = true then
          w.SetMonitor (some d.primary) 0 0 d.mode.Width d.mode.Height
        else
          w.SetMonitor none (Int.tdiv (d.mode.Width - s.WindowWidth) 2)
            (Int.tdiv (d.mode.Height - s.WindowHeight) 2) s.WindowWidth s.WindowHeight) := by
    cases hf : s.IsFullscreen <;>
      simp [KeyCallback, KeyF11, KeyEscape, World.onWindow, Window.SetMonitor, hw, hf]
  refine ⟨?_, hwin, ?_, ?_⟩
  · cases hf : s.IsFullscreen <;>
      simp [KeyCallback, KeyF11, KeyEscape, World.onWindow, hf]
  · rw [hwin, hw]
    constructor
    · intro h; exact (Option.some.inj h).symm
    · intro h; rw [← h]
  · cases hf : s.IsFullscreen <;>
      simp [KeyCallback, KeyF11, KeyEscape, World.onWindow, Window.SetMonitor, hw, hf]

/-- C8 (amended) at the window created at startup. -/
theorem double_toggle_restores_flag_and_canonical_placement_witness :
    (Initialize Env.allOk (World.initial : World ℝ)).2.game.MWindow
        = some (createdWindow Env.allOk (World.initial : World ℝ))
    ∧ (KeyCallback Real.sqrt Display.fullHD
        (KeyCallback Real.sqrt Display.fullHD (Initialize Env.allOk (World.initial : World ℝ)).2
          KeyF11 95 Press 0) KeyF11 95 Press 0).IsFullscreen
        = (Initialize Env.allOk (World.initial : World ℝ)).2.IsFullscreen :=
  ⟨rfl, (double_toggle_restores_flag_and_canonical_placement Real.sqrt Display.fullHD
    (Initialize Env.allOk (World.initial : World ℝ)).2
    (createdWindow Env.allOk (World.initial : World ℝ)) 95 0 95 0 rfl).1⟩


/-! ## Vertex layout -/

/-- C10: `triangleVertices` has 18 floats, uploaded as 72 bytes; attribute 0 is 3 floats at
byte offset 0 and attribute 1 is 3 floats at byte offset 12, both with stride 24; for each of
the three vertices drawn, attribute 0 reads floats `[6i, 6i+3)` and attribute 1 reads floats
`[6i+3, 6i+6)`, every read ends within the 72 bytes, and the values read are the positions
(0, 0.5, -1), (-0.5, -0.5, 0), (0.5, -0.5, 0) and the colours (1, 0, 0), (0, 1, 0),
(0, 0, 1).  When shaders compile and the program links, `initializeOpenGL` uploads exactly
this buffer and declares exactly these two attributes. -/
theorem vertex_layout_matches_data {α : Type} [LinearOrderedField α] :
    (triangleVertices : List α).length = 18
    ∧ (triangleVertices : List α).length * 4 = 72
    ∧ positionAttrib = ⟨0, 3, 24, 0⟩
    ∧ colorAttrib = ⟨1, 3, 24, 12⟩
    ∧ (∀ i, i < 3 →
        fetchAttrib (triangleVertices : List α) positionAttrib i
            = some (((triangleVertices : List α).drop (6 * i)).take 3)
        ∧ fetchAttrib (triangleVertices : List α) colorAttrib i
            = some (((triangleVertices : List α).drop (6 * i + 3)).take 3)
        ∧ positionAttrib.offset + i * positionAttrib.stride + 4 * positionAttrib.size ≤ 72
        ∧ colorAttrib.offset + i * colorAttrib.stride + 4 * colorAttrib.size ≤ 72)
    ∧ fetchAttrib (triangleVertices : List α) positionAttrib 0 = some [0, 0.5, -1]
    ∧ fetchAttrib (triangleVertices : List α) positionAttrib 1 = some [-0.5, -0.5, 0]
    ∧ fetchAttrib (triangleVertices : List α) positionAttrib 2 = some [0.5, -0.5, 0]
    ∧ fetchAttrib (triangleVertices : List α) colorAttrib 0 = some [1, 0, 0]
    ∧ fetchAttrib (triangleVertices : List α) colorAttrib 1 = some [0, 1, 0]
    ∧ fetchAttrib (triangleVertices : List α) colorAttrib 2 = some [0, 0, 1]
    ∧ (∀ (env : Env) (s : World α), env.vertexCompiles = true → env.fragmentCompiles = true →
        env.programLinks = true →
        ∃ pre : List (Effect α), (initializeOpenGL env s).trace = pre ++
          [.bufferData 72 triangleVertices,
           .vertexAttribPointer ⟨0, 3, 24, 0⟩, .enableVertexAttribArray 0,
           .vertexAttribPointer ⟨1, 3, 24, 12⟩, .enableVertexAttribArray 1,
           .bindBuffer 0, .bindVertexArray 0]) := by
  refine ⟨rfl, rfl, rfl, rfl, ?_, ?_, ?_, ?_, ?_, ?_, ?_, ?_⟩
  · intro i hi
    interval_cases i <;>
      simp [fetchAttrib, triangleVertices, positionAttrib, colorAttrib]
  · norm_num [fetchAttrib, triangleVertices, positionAttrib]
  · norm_num [fetchAttrib, triangleVertices, positionAttrib]
  · norm_num [fetchAttrib, triangleVertices, positionAttrib]
  · norm_num [fetchAttrib, triangleVertices, colorAttrib]
  · norm_num [fetchAttrib, triangleVertices, colorAttrib]
  · norm_num [fetchAttrib, triangleVertices, colorAttrib]
  · intro env s hv hf hl
    refine ⟨s.trace ++ [.createShader .VERTEX, .createShader .FRAGMENT, .shaderSource .VERTEX,
      .compileShader .VERTEX, .getShaderiv .VERTEX, .shaderSource .FRAGMENT,
      .compileShader .FRAGMENT, .getShaderiv .FRAGMENT, .createProgram,
      .attachShader (env.program % 2 ^ 32) .VERTEX, .attachShader (env.program % 2 ^ 32) .FRAGMENT,
      .linkProgram (env.program % 2 ^ 32), .getProgramiv (env.program % 2 ^ 32),
      .deleteShader .VERTEX, .deleteShader .FRAGMENT, .genVertexArrays, .genBuffers,
      .bindVertexArray (env.vao % 2 ^ 32), .bindBuffer (env.vbo % 2 ^ 32)], ?_⟩
    simp [initializeOpenGL, checkShaderCompileErrors, checkProgramLinkingErrors, hv, hf, hl,
      World.emit, World.setProgram, World.setVAO, World.setVBO, positionAttrib, colorAttrib,
      triangleVertices]

end Goui
